import Mathlib

/-! # MediaRemote.h as data

`src/Includes/MediaRemote.h` is a declarations-only header.  It is embedded here
line by line as a list of `Line` values (`header`), together with

* `render`, the concrete spelling of a line, so that `header` can be compared
  with the text of the file (`sourceLines`);
* a small model of the C preprocessor's conditional inclusion (`step`, `run`,
  `preprocess`, `includeFiles`);
* projections of the declarations (names, types, parameters, linkage).
-/

namespace MediaRemote

/-! ## Abstract syntax of the header -/

/-- Type specifiers, kept as they are spelled in the header. -/
inductive CType
  | void
  | typeName (n : String)
  | ptr (t : CType)
  | constQual (t : CType)
  deriving DecidableEq, Repr

/-- The type of one parameter: an ordinary type, or a block `ret (^name)(args)`. -/
inductive ParamType
  | plain (t : CType)
  | block (ret : CType) (args : List CType)
  deriving DecidableEq, Repr

/-- One entry of a parameter list, with its name when the source gives one. -/
structure Param where
  ty : ParamType
  name : Option String
  deriving DecidableEq, Repr

/-- Storage-class specifiers of C; `ext` stands for the keyword `extern`. -/
inductive StorageClass
  | ext
  | staticSC
  deriving DecidableEq, Repr

/-- An object declaration `storage ty name [= init];`. -/
structure VarDecl where
  storage : Option StorageClass
  ty : CType
  name : String
  init : Option String
  deriving DecidableEq, Repr

/-- A function declaration `ret name(params)` followed by `;` or by a body. -/
structure FunDecl where
  ret : CType
  name : String
  params : List Param
  body : Option String
  deriving DecidableEq, Repr

/-- A declaration at file scope. -/
inductive Decl
  | var (v : VarDecl)
  | fn (f : FunDecl)
  deriving DecidableEq, Repr

/-- One line of the header. -/
inductive Line
  | ifNotDefined (m : String)
  | ifDefined (m : String)
  | define (m : String)
  | endif (trailing : String)
  | hashImport (path : String)
  | blank
  | comment (text : String)
  | linkageOpen (lang : String)
  | closeBrace
  | decl (d : Decl)
  deriving DecidableEq, Repr

/-- `NSString * const`, the type of every constant of the header. -/
def nsStringPtrConst : CType := .constQual (.ptr (.typeName "NSString"))

/-- The line `extern NSString * const name;`. -/
def constLine (name : String) : Line :=
  .decl (.var ⟨some .ext, nsStringPtrConst, name, none⟩)

/-- The parameter `dispatch_queue_t queue`. -/
def queueParam : Param := ⟨.plain (.typeName "dispatch_queue_t"), some "queue"⟩

/-- The parameter `void (^block)(arg)`. -/
def blockParam (arg : CType) : Param := ⟨.block .void [arg], some "block"⟩

/-- The line `void name(params);`. -/
def protoLine (name : String) (params : List Param) : Line :=
  .decl (.fn ⟨.void, name, params, none⟩)

/-- The 35 lines of `src/Includes/MediaRemote.h`, in order. -/
def header : List Line :=
  [ .ifNotDefined "MediaRemote_h",
    .define "MediaRemote_h",
    .blank,
    .hashImport "Foundation/Foundation.h",
    .blank,
    .ifDefined "__cplusplus",
    .linkageOpen "C",
    .endif "",
    .blank,
    .comment "Notification names",
    constLine "kMRMediaRemoteNowPlayingInfoDidChangeNotification",
    constLine "kMRMediaRemoteNowPlayingPlaybackQueueDidChangeNotification",
    constLine "kMRMediaRemoteNowPlayingApplicationDidChangeNotification",
    .blank,
    .comment "Dictionary keys for now playing info",
    constLine "kMRMediaRemoteNowPlayingInfoArtist",
    constLine "kMRMediaRemoteNowPlayingInfoAlbum",
    constLine "kMRMediaRemoteNowPlayingInfoTitle",
    constLine "kMRMediaRemoteNowPlayingInfoDuration",
    constLine "kMRMediaRemoteNowPlayingInfoElapsedTime",
    constLine "kMRMediaRemoteNowPlayingInfoPlaybackRate",
    constLine "kMRMediaRemoteNowPlayingInfoArtworkData",
    .blank,
    .comment "Functions",
    protoLine "MRMediaRemoteRegisterForNowPlayingNotifications" [queueParam],
    protoLine "MRMediaRemoteUnregisterForNowPlayingNotifications" [⟨.plain .void, none⟩],
    protoLine "MRMediaRemoteGetNowPlayingInfo"
      [queueParam, blockParam (.typeName "CFDictionaryRef")],
    protoLine "MRMediaRemoteGetNowPlayingApplicationDisplayName"
      [queueParam, blockParam (.ptr (.typeName "NSString"))],
    protoLine "MRMediaRemoteGetNowPlayingClient"
      [queueParam, blockParam (.typeName "id")],
    .blank,
    .ifDefined "__cplusplus",
    .closeBrace,
    .endif "",
    .blank,
    .endif " /* MediaRemote_h */" ]

/-! ## Concrete syntax -/

/-- Spelling of a type specifier. -/
def renderType : CType → String
  | .void => "void"
  | .typeName n => n
  | .ptr t => renderType t ++ " *"
  | .constQual t => renderType t ++ " const"

/-- Spelling of a storage class. -/
def renderStorage : Option StorageClass → String
  | none => ""
  | some .ext => "extern "
  | some .staticSC => "static "

/-- Spelling of one parameter. -/
def renderParam : Param → String
  | ⟨.plain t, none⟩ => renderType t
  | ⟨.plain t, some n⟩ => renderType t ++ " " ++ n
  | ⟨.block r as, n⟩ =>
      renderType r ++ " (^" ++ n.getD "" ++ ")(" ++ ", ".intercalate (as.map renderType) ++ ")"

/-- Spelling of a declaration. -/
def renderDecl : Decl → String
  | .var v =>
      renderStorage v.storage ++ renderType v.ty ++ " " ++ v.name ++
        (match v.init with | none => "" | some e => " = " ++ e) ++ ";"
  | .fn f =>
      renderType f.ret ++ " " ++ f.name ++ "(" ++
        ", ".intercalate (f.params.map renderParam) ++ ")" ++
        (match f.body with | none => ";" | some b => " " ++ b)

/-- Spelling of a line. -/
def render : Line → String
  | .ifNotDefined m => "#ifndef " ++ m
  | .ifDefined m => "#ifdef " ++ m
  | .define m => "#define " ++ m
  | .endif t => "#endif" ++ t
  | .hashImport p => "#import <" ++ p ++ ">"
  | .blank => ""
  | .comment t => "// " ++ t
  | .linkageOpen l => "extern \"" ++ l ++ "\" \x7b"
  | .closeBrace => "\x7d"
  | .decl d => renderDecl d

/-- The text of `src/Includes/MediaRemote.h`, one string per line. -/
def sourceLines : List String :=
  [ "#ifndef MediaRemote_h",
    "#define MediaRemote_h",
    "",
    "#import <Foundation/Foundation.h>",
    "",
    "#ifdef __cplusplus",
    "extern \"C\" \x7b",
    "#endif",
    "",
    "// Notification names",
    "extern NSString * const kMRMediaRemoteNowPlayingInfoDidChangeNotification;",
    "extern NSString * const kMRMediaRemoteNowPlayingPlaybackQueueDidChangeNotification;",
    "extern NSString * const kMRMediaRemoteNowPlayingApplicationDidChangeNotification;",
    "",
    "// Dictionary keys for now playing info",
    "extern NSString * const kMRMediaRemoteNowPlayingInfoArtist;",
    "extern NSString * const kMRMediaRemoteNowPlayingInfoAlbum;",
    "extern NSString * const kMRMediaRemoteNowPlayingInfoTitle;",
    "extern NSString * const kMRMediaRemoteNowPlayingInfoDuration;",
    "extern NSString * const kMRMediaRemoteNowPlayingInfoElapsedTime;",
    "extern NSString * const kMRMediaRemoteNowPlayingInfoPlaybackRate;",
    "extern NSString * const kMRMediaRemoteNowPlayingInfoArtworkData;",
    "",
    "// Functions",
    "void MRMediaRemoteRegisterForNowPlayingNotifications(dispatch_queue_t queue);",
    "void MRMediaRemoteUnregisterForNowPlayingNotifications(void);",
    "void MRMediaRemoteGetNowPlayingInfo(dispatch_queue_t queue, void (^block)(CFDictionaryRef));",
    "void MRMediaRemoteGetNowPlayingApplicationDisplayName(dispatch_queue_t queue, void (^block)(NSString *));",
    "void MRMediaRemoteGetNowPlayingClient(dispatch_queue_t queue, void (^block)(id));",
    "",
    "#ifdef __cplusplus",
    "\x7d",
    "#endif",
    "",
    "#endif /* MediaRemote_h */" ]

/-! ## Conditional inclusion -/

/-- State of the preprocessor: the names defined so far, the truth values of
the enclosing conditionals (innermost first), and the lines passed on. -/
structure PP where
  defs : List String
  conds : List Bool
  out : List Line
  deriving DecidableEq, Repr

/-- A line is live when every enclosing conditional holds. -/
def PP.live (s : PP) : Bool := s.conds.all id

/-- Process one line.  `#ifndef`/`#ifdef` open a group, `#endif` closes the
innermost one (an error when none is open), `#define` records the name when
live; blank lines and comments are dropped, every other live line is passed on. -/
def step (s : PP) : Line → Option PP
  | .ifNotDefined m => some { s with conds := (!s.defs.contains m) :: s.conds }
  | .ifDefined m => some { s with conds := s.defs.contains m :: s.conds }
  | .endif _ =>
      match s.conds with
      | [] => none
      | _ :: cs => some { s with conds := cs }
  | .define m => some (if s.live then { s with defs := m :: s.defs } else s)
  | .blank => some s
  | .comment _ => some s
  | l => some (if s.live then { s with out := s.out ++ [l] } else s)

/-- Process a list of lines from left to right. -/
def run (s : PP) : List Line → Option PP
  | [] => some s
  | l :: ls => (step s l).bind fun s1 => run s1 ls

/-- Process one file; every conditional it opens must be closed by its end. -/
def includeFile (s : PP) (file : List Line) : Option PP :=
  (run s file).bind fun s1 => if s1.conds = s.conds then some s1 else none

/-- Process a file on its own, starting from the given set of defined names. -/
def preprocess (defs : List String) (file : List Line) : Option PP :=
  includeFile ⟨defs, [], []⟩ file

/-- Process several inclusions one after the other in one translation unit. -/
def includeFiles (s : PP) : List (List Line) → Option PP
  | [] => some s
  | f :: fs => (includeFile s f).bind fun s1 => includeFiles s1 fs

/-- Nesting depth after a list of lines, `none` when an `#endif` has no opener. -/
def depthAfter (d : Nat) : List Line → Option Nat
  | [] => some d
  | .ifNotDefined _ :: ls => depthAfter (d + 1) ls
  | .ifDefined _ :: ls => depthAfter (d + 1) ls
  | .endif _ :: ls =>
      match d with
      | 0 => none
      | k + 1 => depthAfter k ls
  | _ :: ls => depthAfter d ls

/-- Every `#ifndef`/`#ifdef` has its `#endif` and the other way round. -/
def balanced (ls : List Line) : Bool := depthAfter 0 ls == some 0

/-- A condition guarding a line: the name tested and whether it must be defined. -/
structure Cond where
  name : String
  mustBeDefined : Bool
  deriving DecidableEq, Repr

/-- Each line that is not itself a conditional directive, with the conditions
of the groups around it (innermost first). -/
def guards (cs : List Cond) : List Line → List (Line × List Cond)
  | [] => []
  | .ifNotDefined m :: ls => guards (⟨m, false⟩ :: cs) ls
  | .ifDefined m :: ls => guards (⟨m, true⟩ :: cs) ls
  | .endif _ :: ls => guards cs.tail ls
  | l :: ls => (l, cs) :: guards cs ls

/-! ## Declarations and their parts -/

/-- The declarations among a list of lines. -/
def declsOf (ls : List Line) : List Decl :=
  ls.filterMap fun l => match l with
    | .decl d => some d
    | _ => none

/-- Every declaration written in the header. -/
def declarations : List Decl := declsOf header

/-- The object declarations among a list of declarations. -/
def constantsOf (ds : List Decl) : List VarDecl :=
  ds.filterMap fun d => match d with
    | .var v => some v
    | _ => none

/-- The function declarations among a list of declarations. -/
def functionsOf (ds : List Decl) : List FunDecl :=
  ds.filterMap fun d => match d with
    | .fn f => some f
    | _ => none

/-- The constants declared by the header. -/
def constants : List VarDecl := constantsOf declarations

/-- The functions declared by the header. -/
def functions : List FunDecl := functionsOf declarations

/-- The identifier a declaration introduces. -/
def Decl.name : Decl → String
  | .var v => v.name
  | .fn f => f.name

/-- The identifiers declared by the header, in order. -/
def declaredSymbols : List String := declarations.map Decl.name

/-- C's rule for when a file-scope declaration is also a definition: an object
with an initializer or without the `extern` keyword, a function with a body. -/
def Decl.isDefinition : Decl → Bool
  | .var v => v.init.isSome || v.storage != some .ext
  | .fn f => f.body.isSome

/-- The identifiers the header defines (as opposed to declares). -/
def definedSymbols : List String :=
  (declarations.filter Decl.isDefinition).map Decl.name

/-- The parameters of a function; C reads the list `(void)` as no parameter. -/
def FunDecl.parameters (f : FunDecl) : List Param :=
  if f.params = [⟨.plain .void, none⟩] then [] else f.params

/-- Whether a parameter is a `dispatch_queue_t`. -/
def Param.isQueue (p : Param) : Bool := p.ty == .plain (.typeName "dispatch_queue_t")

/-- Whether a parameter is a block. -/
def Param.isBlock (p : Param) : Bool :=
  match p.ty with
  | .block _ _ => true
  | .plain _ => false

/-- The blocks among the parameters of a function, as (return type, argument types). -/
def FunDecl.blocks (f : FunDecl) : List (CType × List CType) :=
  f.parameters.filterMap fun p => match p.ty with
    | .block r as => some (r, as)
    | .plain _ => none

/-- Whether the first list of characters is found somewhere inside the second. -/
def hasInfix (pat : List Char) : List Char → Bool
  | [] => pat.isEmpty
  | c :: cs => pat.isPrefixOf (c :: cs) || hasInfix pat cs

/-- The name a type specifier is built from, `none` for `void`. -/
def CType.baseName : CType → Option String
  | .void => none
  | .typeName n => some n
  | .ptr t => t.baseName
  | .constQual t => t.baseName

/-- A type counts as a dictionary type when its name contains `Dictionary`. -/
def CType.isDictionary (t : CType) : Bool :=
  match t.baseName with
  | none => false
  | some n => hasInfix "Dictionary".toList n.toList

/-- Where in a declaration a type is written. -/
inductive Place
  | varType
  | retType
  | paramType (i : Nat)
  | blockRet (i : Nat)
  | blockArg (i j : Nat)
  deriving DecidableEq, Repr

/-- The types written in the parameter at index `i`. -/
def paramTypes (i : Nat) : Param → List (Place × CType)
  | ⟨.plain t, _⟩ => [(.paramType i, t)]
  | ⟨.block r as, _⟩ => (.blockRet i, r) :: as.enum.map fun a => (.blockArg i a.1, a.2)

/-- Every type written in a declaration, with the declared name and the place. -/
def typeOccurrences : Decl → List (String × Place × CType)
  | .var v => [(v.name, .varType, v.ty)]
  | .fn f =>
      (f.name, .retType, f.ret) ::
        (f.params.enum.flatMap fun p => paramTypes p.1 p.2).map fun o => (f.name, o.1, o.2)

/-- The language linkage of each declaration among the lines passed on by the
preprocessor: the innermost open linkage block, if any. -/
def linkages (open_ : List String) : List Line → List (Decl × Option String)
  | [] => []
  | .linkageOpen l :: ls => linkages (l :: open_) ls
  | .closeBrace :: ls => linkages open_.tail ls
  | .decl d :: ls => (d, open_.head?) :: linkages open_ ls
  | _ :: ls => linkages open_ ls

/-- The declarations written between a comment line with the given text and
the next comment line. -/
def underComment (text : String) : Bool → List Line → List Decl
  | _, [] => []
  | _, .comment t :: ls => underComment text (t == text) ls
  | true, .decl d :: ls => d :: underComment text true ls
  | b, _ :: ls => underComment text b ls

/-- The lines a first inclusion of the header passes on: the import, the
declarations, and around them the linkage block when compiling as C++. -/
def firstInclusionOutput (cpp : Bool) : List Line :=
  [.hashImport "Foundation/Foundation.h"] ++ (if cpp then [.linkageOpen "C"] else []) ++
    declarations.map Line.decl ++ (if cpp then [.closeBrace] else [])

/-- Conditional directives and `#define`. -/
def Line.isDirective : Line → Bool
  | .ifNotDefined _ => true
  | .ifDefined _ => true
  | .endif _ => true
  | .define _ => true
  | _ => false

/-- Lines that reach the output when live. -/
def Line.passes : Line → Bool
  | .hashImport _ => true
  | .linkageOpen _ => true
  | .closeBrace => true
  | .decl _ => true
  | _ => false

/-- The lines between the two linkage groups: comments, blanks and declarations. -/
def headerBody : List Line := (header.drop 8).take 22



/-- The shape of the header around its body. -/
def wrap (body : List Line) : List Line :=
  [.ifNotDefined "MediaRemote_h", .define "MediaRemote_h"] ++
    ([.blank, .hashImport "Foundation/Foundation.h", .blank] ++
      ((.ifDefined "__cplusplus" :: ([.linkageOpen "C"] ++ [.endif ""])) ++
        (body ++
          ((.ifDefined "__cplusplus" :: ([.closeBrace] ++ [.endif ""])) ++
            [.blank, .endif " /* MediaRemote_h */"]))))

/-- Number of `dispatch_queue_t` parameters of a function. -/
def FunDecl.queueCount (f : FunDecl) : Nat := (f.parameters.filter Param.isQueue).length

/-- Number of block parameters of a function. -/
def FunDecl.blockCount (f : FunDecl) : Nat := (f.parameters.filter Param.isBlock).length

/-- An object declared with the `extern` keyword and without an initializer. -/
def Decl.isExternConstNoInit : Decl → Bool
  | .var v => v.storage == some .ext && v.init.isNone
  | .fn _ => false

/-- A function declared without a body. -/
def Decl.isPrototype : Decl → Bool
  | .var _ => false
  | .fn f => f.body.isNone

/-- Whether a name begins with the given text. -/
def startsWith (pre name : String) : Bool := pre.toList.isPrefixOf name.toList

/-- The places of the header where a dictionary type is written. -/
def dictionaryOccurrences : List (String × Place × CType) :=
  (declarations.flatMap typeOccurrences).filter fun o => o.2.2.isDictionary

/-- Whether a line opens or closes a linkage block. -/
def Line.isBrace : Line → Bool
  | .linkageOpen _ => true
  | .closeBrace => true
  | _ => false

/-- Whether a line is a declaration. -/
def Line.isDecl : Line → Bool
  | .decl _ => true
  | _ => false

/-! ## The header and its text -/

set_option linter.unnecessarySimpa false
set_option maxRecDepth 100000

/-- Rendering the embedded header gives back the text of the file, line for line. -/
theorem header_renders_to_source : header.map render = sourceLines := by
  decide


theorem run_append (a b : List Line) (s : PP) :
    run s (a ++ b) = (run s a).bind fun s1 => run s1 b := by
  induction a generalizing s with
  | nil => simp [run]
  | cons l ls ih =>
    simp only [List.cons_append, run]
    cases step s l with
    | none => simp
    | some s1 => simpa using ih s1

theorem step_plain (s : PP) (l : Line) (h : l.isDirective = false) :
    step s l = some (if s.live && l.passes then { s with out := s.out ++ [l] } else s) := by
  cases l <;> simp_all [step, Line.isDirective, Line.passes]

theorem run_plain_dead (ls : List Line) (s : PP) (hs : s.live = false)
    (h : ∀ l ∈ ls, l.isDirective = false) : run s ls = some s := by
  induction ls with
  | nil => rfl
  | cons l ls ih =>
    simp only [run, step_plain s l (h l (by simp)), hs]
    simpa using ih (fun l hl => h l (by simp [hl]))

theorem run_plain_live (ls : List Line) (s : PP) (hs : s.live = true)
    (h : ∀ l ∈ ls, l.isDirective = false) :
    run s ls = some { s with out := s.out ++ ls.filter Line.passes } := by
  induction ls generalizing s with
  | nil => simp [run]
  | cons l ls ih =>
    have hl := h l (by simp)
    have ht := fun l hl => h l (List.mem_cons_of_mem _ hl)
    simp only [run, step_plain s l hl, hs, Bool.true_and, Option.some_bind]
    cases hp : l.passes
    · simp only [Bool.false_eq_true, ↓reduceIte]
      rw [ih s hs ht]; simp [List.filter_cons, hp]
    · simp only [↓reduceIte]
      rw [ih _ (by simpa [PP.live] using hs) ht]; simp [List.filter_cons, hp]


theorem run_ifdef_group (s : PP) (m t : String) (ls : List Line)
    (h : ∀ l ∈ ls, l.isDirective = false) :
    run s (.ifDefined m :: (ls ++ [.endif t])) =
      some (if s.live && s.defs.contains m
        then { s with out := s.out ++ ls.filter Line.passes } else s) := by
  obtain ⟨defs, conds, out⟩ := s
  simp only [run, step, Option.some_bind, run_append]
  cases hl : (PP.mk defs conds out).live <;> cases hm : defs.contains m
  all_goals
    first
    | rw [run_plain_live _ _ (by simpa [PP.live, hm] using hl) h]
      simp [run, step]
    | rw [run_plain_dead _ _ (by simpa [PP.live, hm] using hl) h]
      simp [run, step]

theorem headerBody_plain : ∀ l ∈ headerBody, l.isDirective = false := by
  decide

theorem headerBody_passes : headerBody.filter Line.passes = declarations.map Line.decl := by
  decide


theorem run_cons (s : PP) (l : Line) (ls : List Line) :
    run s (l :: ls) = (step s l).bind fun s1 => run s1 ls := rfl

theorem wrap_eq (body : List Line) :
    wrap body = .ifNotDefined "MediaRemote_h" :: .define "MediaRemote_h" ::
      ([.blank, .hashImport "Foundation/Foundation.h", .blank] ++
        ((.ifDefined "__cplusplus" :: ([.linkageOpen "C"] ++ [.endif ""])) ++
          (body ++
            ((.ifDefined "__cplusplus" :: ([.closeBrace] ++ [.endif ""])) ++
              [.blank, .endif " /* MediaRemote_h */"])))) := rfl

theorem run_wrap_guarded (body : List Line) (hb : ∀ l ∈ body, l.isDirective = false)
    (s : PP) (h : "MediaRemote_h" ∈ s.defs) : run s (wrap body) = some s := by
  obtain ⟨defs, conds, out⟩ := s
  have h0 : "MediaRemote_h" ∈ defs := h
  have hc : defs.contains "MediaRemote_h" = true := by simpa using h0
  have hd : (PP.mk defs (false :: conds) out).live = false := by simp [PP.live]
  have h1 : step ⟨defs, conds, out⟩ (.ifNotDefined "MediaRemote_h") =
      some ⟨defs, false :: conds, out⟩ := by simp [step, h0]
  have h2 : step ⟨defs, false :: conds, out⟩ (.define "MediaRemote_h") =
      some ⟨defs, false :: conds, out⟩ := by simp [step, hd]
  have h3 : run ⟨defs, false :: conds, out⟩
      [.blank, .hashImport "Foundation/Foundation.h", .blank] =
      some ⟨defs, false :: conds, out⟩ :=
    run_plain_dead _ _ hd (by simp [Line.isDirective])
  have h4 : ∀ l : Line, l.isDirective = false →
      run ⟨defs, false :: conds, out⟩ (.ifDefined "__cplusplus" :: ([l] ++ [.endif ""])) =
      some ⟨defs, false :: conds, out⟩ := by
    intro l hl
    rw [run_ifdef_group _ _ _ _ (by simpa using hl), hd]; simp
  have h5 : run ⟨defs, false :: conds, out⟩ body = some ⟨defs, false :: conds, out⟩ :=
    run_plain_dead _ _ hd hb
  have h7 : run ⟨defs, false :: conds, out⟩ [.blank, .endif " /* MediaRemote_h */"] =
      some ⟨defs, conds, out⟩ := by simp [run, step]
  rw [wrap_eq, run_cons, h1, Option.some_bind, run_cons, h2, Option.some_bind,
    run_append, h3, Option.some_bind, run_append, h4 (.linkageOpen "C") rfl, Option.some_bind,
    run_append, h5, Option.some_bind, run_append, h4 .closeBrace rfl, Option.some_bind, h7]

theorem run_wrap_fresh (body : List Line) (hb : ∀ l ∈ body, l.isDirective = false)
    (s : PP) (hl : s.live = true) (h : "MediaRemote_h" ∉ s.defs) :
    run s (wrap body) =
      some ⟨"MediaRemote_h" :: s.defs, s.conds,
        s.out ++ ([.hashImport "Foundation/Foundation.h"] ++
          (if s.defs.contains "__cplusplus" then [.linkageOpen "C"] else []) ++
          body.filter Line.passes ++
          (if s.defs.contains "__cplusplus" then [.closeBrace] else []))⟩ := by
  obtain ⟨defs, conds, out⟩ := s
  have h0 : "MediaRemote_h" ∉ defs := h
  have hc : defs.contains "MediaRemote_h" = false := by simpa using h0
  have hl1 : ∀ d o, (PP.mk d (true :: conds) o).live = true := by
    intro d o; simpa [PP.live] using hl
  have hcpp : ("MediaRemote_h" :: defs).contains "__cplusplus" = defs.contains "__cplusplus" := by
    simp [List.contains_cons]
  have h1 : step ⟨defs, conds, out⟩ (.ifNotDefined "MediaRemote_h") =
      some ⟨defs, true :: conds, out⟩ := by simp [step, h0]
  have h2 : step ⟨defs, true :: conds, out⟩ (.define "MediaRemote_h") =
      some ⟨"MediaRemote_h" :: defs, true :: conds, out⟩ := by simp [step, hl1]
  have h3 : ∀ o, run ⟨"MediaRemote_h" :: defs, true :: conds, o⟩
      [.blank, .hashImport "Foundation/Foundation.h", .blank] =
      some ⟨"MediaRemote_h" :: defs, true :: conds,
        o ++ [.hashImport "Foundation/Foundation.h"]⟩ := by
    intro o
    rw [run_plain_live _ _ (hl1 _ _) (by simp [Line.isDirective])]
    simp [Line.passes]
  have h4 : ∀ (l : Line) (o : List Line), l.isDirective = false → l.passes = true →
      run ⟨"MediaRemote_h" :: defs, true :: conds, o⟩
        (.ifDefined "__cplusplus" :: ([l] ++ [.endif ""])) =
      some ⟨"MediaRemote_h" :: defs, true :: conds,
        o ++ (if defs.contains "__cplusplus" then [l] else [])⟩ := by
    intro l o hd hp
    rw [run_ifdef_group _ _ _ _ (by simpa using hd), hl1]
    simp only [hcpp, Bool.true_and]
    cases defs.contains "__cplusplus" <;> simp [hp]
  have h5 : ∀ o, run ⟨"MediaRemote_h" :: defs, true :: conds, o⟩ body =
      some ⟨"MediaRemote_h" :: defs, true :: conds, o ++ body.filter Line.passes⟩ :=
    fun o => run_plain_live _ _ (hl1 _ _) hb
  have h7 : ∀ o, run ⟨"MediaRemote_h" :: defs, true :: conds, o⟩
      [.blank, .endif " /* MediaRemote_h */"] =
      some ⟨"MediaRemote_h" :: defs, conds, o⟩ := by
    intro o; simp [run, step]
  rw [wrap_eq, run_cons, h1, Option.some_bind, run_cons, h2, Option.some_bind,
    run_append, h3, Option.some_bind, run_append, h4 (.linkageOpen "C") _ rfl rfl, Option.some_bind,
    run_append, h5, Option.some_bind, run_append, h4 .closeBrace _ rfl rfl, Option.some_bind, h7]
  simp

theorem header_eq_wrap : header = wrap headerBody := by
  rfl

/-- With the guard name already defined, processing the header changes nothing. -/
theorem run_header_guarded (s : PP) (h : "MediaRemote_h" ∈ s.defs) :
    run s header = some s := by
  rw [header_eq_wrap]; exact run_wrap_guarded _ headerBody_plain s h

theorem run_header_fresh (s : PP) (hl : s.live = true) (h : "MediaRemote_h" ∉ s.defs) :
    run s header =
      some ⟨"MediaRemote_h" :: s.defs, s.conds,
        s.out ++ firstInclusionOutput (s.defs.contains "__cplusplus")⟩ := by
  rw [header_eq_wrap, run_wrap_fresh _ headerBody_plain s hl h, headerBody_passes]
  rfl

/-- A first inclusion at top level: the guard name becomes defined and the import
and the declarations are passed on. -/
theorem includeFile_header_fresh (defs : List String) (out : List Line)
    (h : "MediaRemote_h" ∉ defs) :
    includeFile ⟨defs, [], out⟩ header =
      some ⟨"MediaRemote_h" :: defs, [],
        out ++ firstInclusionOutput (defs.contains "__cplusplus")⟩ := by
  simp [includeFile, run_header_fresh ⟨defs, [], out⟩ (by simp [PP.live]) h]

/-- An inclusion with the guard name defined leaves the state as it is. -/
theorem includeFile_header_guarded (s : PP) (h : "MediaRemote_h" ∈ s.defs) :
    includeFile s header = some s := by
  simp [includeFile, run_header_guarded s h]

/-- The declarations among the lines of a first inclusion are those of the header. -/
theorem declsOf_firstInclusionOutput (cpp : Bool) :
    declsOf (firstInclusionOutput cpp) = declarations := by
  cases cpp <;> decide

/-! ## The declared functions and constants -/

/-- C1: the header declares exactly five functions and no others, named
`MRMediaRemoteRegisterForNowPlayingNotifications`,
`MRMediaRemoteUnregisterForNowPlayingNotifications`, `MRMediaRemoteGetNowPlayingInfo`,
`MRMediaRemoteGetNowPlayingApplicationDisplayName` and `MRMediaRemoteGetNowPlayingClient`,
and the five names are pairwise distinct. -/
theorem C1_exactly_five_functions :
    functions.map (fun f => f.name) =
      [ "MRMediaRemoteRegisterForNowPlayingNotifications",
        "MRMediaRemoteUnregisterForNowPlayingNotifications",
        "MRMediaRemoteGetNowPlayingInfo",
        "MRMediaRemoteGetNowPlayingApplicationDisplayName",
        "MRMediaRemoteGetNowPlayingClient" ] ∧
    functions.length = 5 ∧
    (functions.map fun f => f.name).Nodup := by
  decide

/-- C2, as stated, fails: `MRMediaRemoteUnregisterForNowPlayingNotifications` is one
of the declared functions and has neither a `dispatch_queue_t` parameter nor a block
parameter, so not every declared function has one of each. -/
theorem C2_not_every_function_has_queue_and_block :
    (⟨.void, "MRMediaRemoteUnregisterForNowPlayingNotifications",
        [⟨.plain .void, none⟩], none⟩ : FunDecl) ∈ functions ∧
    (⟨.void, "MRMediaRemoteUnregisterForNowPlayingNotifications",
        [⟨.plain .void, none⟩], none⟩ : FunDecl).queueCount = 0 ∧
    (⟨.void, "MRMediaRemoteUnregisterForNowPlayingNotifications",
        [⟨.plain .void, none⟩], none⟩ : FunDecl).blockCount = 0 ∧
    ¬ ∀ f ∈ functions, f.queueCount = 1 ∧ f.blockCount = 1 := by
  decide

/-- C2, amended: the three `MRMediaRemoteGet...` functions each have exactly two
parameters, one `dispatch_queue_t` followed by one block; the register function has
one `dispatch_queue_t` parameter and no block; the unregister function has neither. -/
theorem C2_queue_and_block_per_function :
    functions.map (fun f => (f.name, f.parameters.length, f.queueCount, f.blockCount)) =
      [ ("MRMediaRemoteRegisterForNowPlayingNotifications", 1, 1, 0),
        ("MRMediaRemoteUnregisterForNowPlayingNotifications", 0, 0, 0),
        ("MRMediaRemoteGetNowPlayingInfo", 2, 1, 1),
        ("MRMediaRemoteGetNowPlayingApplicationDisplayName", 2, 1, 1),
        ("MRMediaRemoteGetNowPlayingClient", 2, 1, 1) ] ∧
    (functions.filter fun f => startsWith "MRMediaRemoteGet" f.name).map
        (fun f => f.parameters.map fun p => (p.isQueue, p.isBlock)) =
      [ [(true, false), (false, true)],
        [(true, false), (false, true)],
        [(true, false), (false, true)] ] := by
  decide

/-- C3: the header contains no implementation: each of its fifteen declarations
is either an object declared with the `extern` keyword and no initializer or a
function prototype without a body, so the list of symbols it defines is empty. -/
theorem C3_declarations_only :
    declarations.length = 15 ∧
    (declarations.all fun d => d.isExternConstNoInit || d.isPrototype) = true ∧
    (declarations.filter Decl.isDefinition) = [] ∧
    definedSymbols = [] := by
  decide

/-- C4: the header declares exactly ten constants, each of type `NSString * const`
with the `extern` storage class: the three notification names and the seven
now-playing-info keys `Artist`, `Album`, `Title`, `Duration`, `ElapsedTime`,
`PlaybackRate`, `ArtworkData`; there is no constant of another type. -/
theorem C4_ten_string_constants :
    constants.length = 10 ∧
    (constants.all fun v => v.ty = nsStringPtrConst ∧ v.storage = some .ext) = true ∧
    renderType nsStringPtrConst = "NSString * const" ∧
    constants.map (fun v => v.name) =
      [ "kMRMediaRemoteNowPlayingInfoDidChangeNotification",
        "kMRMediaRemoteNowPlayingPlaybackQueueDidChangeNotification",
        "kMRMediaRemoteNowPlayingApplicationDidChangeNotification" ] ++
      ["Artist", "Album", "Title", "Duration", "ElapsedTime", "PlaybackRate",
        "ArtworkData"].map (fun k => "kMRMediaRemoteNowPlayingInfo" ++ k) ∧
    (underComment "Notification names" false header).map Decl.name =
      [ "kMRMediaRemoteNowPlayingInfoDidChangeNotification",
        "kMRMediaRemoteNowPlayingPlaybackQueueDidChangeNotification",
        "kMRMediaRemoteNowPlayingApplicationDidChangeNotification" ] ∧
    (underComment "Dictionary keys for now playing info" false header).map Decl.name =
      ["Artist", "Album", "Title", "Duration", "ElapsedTime", "PlaybackRate",
        "ArtworkData"].map (fun k => "kMRMediaRemoteNowPlayingInfo" ++ k) ∧
    constantsOf (underComment "Notification names" false header ++
      underComment "Dictionary keys for now playing info" false header) = constants := by
  decide

/-- C5: the ten constant names are pairwise distinct, none of them is the name of
one of the five functions, and so the fifteen declared symbols are pairwise distinct. -/
theorem C5_declared_symbols_distinct :
    (constants.map fun v => v.name).length = 10 ∧
    (constants.map fun v => v.name).Nodup ∧
    (∀ c ∈ constants.map (fun v => v.name), c ∉ functions.map (fun f => f.name)) ∧
    declaredSymbols = (constants.map fun v => v.name) ++ (functions.map fun f => f.name) ∧
    declaredSymbols.length = 15 ∧
    declaredSymbols.Nodup := by
  decide

/-- C6: a dictionary type is written in exactly one place of the header, and it is
`CFDictionaryRef`, the single argument of the block parameter of
`MRMediaRemoteGetNowPlayingInfo`; no type written in any other declaration is a
dictionary type. -/
theorem C6_single_dictionary_type :
    dictionaryOccurrences =
      [("MRMediaRemoteGetNowPlayingInfo", .blockArg 1 0, .typeName "CFDictionaryRef")] ∧
    (functions.filter fun f => f.name = "MRMediaRemoteGetNowPlayingInfo").map
        (fun f => f.blocks) = [[(.void, [.typeName "CFDictionaryRef"])]] ∧
    (∀ d ∈ declarations, d.name ≠ "MRMediaRemoteGetNowPlayingInfo" →
      ∀ o ∈ typeOccurrences d, o.2.2.isDictionary = false) := by
  decide

/-- C8: every declared function returns `void`; exactly the three functions whose
name starts with `MRMediaRemoteGet` take a block parameter, each takes one block,
and that block returns `void` and takes one argument, of type `CFDictionaryRef`,
`NSString *` and `id` respectively; the register function takes only a
`dispatch_queue_t` and the unregister function takes no parameter. -/
theorem C8_results_only_through_blocks :
    (functions.all fun f => f.ret = .void) = true ∧
    (functions.filter fun f => f.parameters.any Param.isBlock) =
      (functions.filter fun f => startsWith "MRMediaRemoteGet" f.name) ∧
    functions.map (fun f => (f.name, f.blocks)) =
      [ ("MRMediaRemoteRegisterForNowPlayingNotifications", []),
        ("MRMediaRemoteUnregisterForNowPlayingNotifications", []),
        ("MRMediaRemoteGetNowPlayingInfo", [(.void, [.typeName "CFDictionaryRef"])]),
        ("MRMediaRemoteGetNowPlayingApplicationDisplayName",
          [(.void, [.ptr (.typeName "NSString")])]),
        ("MRMediaRemoteGetNowPlayingClient", [(.void, [.typeName "id"])]) ] ∧
    renderType (.ptr (.typeName "NSString")) = "NSString *" ∧
    functions.map (fun f => (f.name, f.parameters.map fun p => p.ty)) =
      [ ("MRMediaRemoteRegisterForNowPlayingNotifications",
          [.plain (.typeName "dispatch_queue_t")]),
        ("MRMediaRemoteUnregisterForNowPlayingNotifications", []),
        ("MRMediaRemoteGetNowPlayingInfo",
          [.plain (.typeName "dispatch_queue_t"), .block .void [.typeName "CFDictionaryRef"]]),
        ("MRMediaRemoteGetNowPlayingApplicationDisplayName",
          [.plain (.typeName "dispatch_queue_t"),
            .block .void [.ptr (.typeName "NSString")]]),
        ("MRMediaRemoteGetNowPlayingClient",
          [.plain (.typeName "dispatch_queue_t"), .block .void [.typeName "id"]]) ] := by
  decide

/-! ## Linkage block and include guard -/

/-- C7: take any set of defined names without the guard name.  When `__cplusplus`
is among them, the lines passed on are the import, one opening of a "C" linkage
block, the fifteen declarations, and the closing brace, so every declaration has
"C" linkage; when it is not, neither the opening nor the closing brace is passed
on.  The opening and the closing brace stand under the same two conditions,
`#ifdef __cplusplus` inside `#ifndef MediaRemote_h`.  In both configurations the
declarations passed on are the same, those of the header. -/
theorem C7_c_linkage_block (defsCpp defsC : List String)
    (hg1 : "MediaRemote_h" ∉ defsCpp) (hg2 : "MediaRemote_h" ∉ defsC)
    (hcpp : "__cplusplus" ∈ defsCpp) (hc : "__cplusplus" ∉ defsC) :
    ∃ sCpp sC,
      preprocess defsCpp header = some sCpp ∧ preprocess defsC header = some sC ∧
      sCpp.out =
        [.hashImport "Foundation/Foundation.h", .linkageOpen "C"] ++
          declarations.map Line.decl ++ [.closeBrace] ∧
      linkages [] sCpp.out = declarations.map (fun d => (d, some "C")) ∧
      sC.out = .hashImport "Foundation/Foundation.h" :: declarations.map Line.decl ∧
      sCpp.out.filter Line.isBrace = [.linkageOpen "C", .closeBrace] ∧
      sC.out.filter Line.isBrace = [] ∧
      linkages [] sC.out = declarations.map (fun d => (d, none)) ∧
      declsOf sCpp.out = declarations ∧ declsOf sC.out = declarations ∧
      (declsOf sCpp.out).map Decl.name = (declsOf sC.out).map Decl.name ∧
      (guards [] header).filter (fun p => p.1.isBrace) =
        [ (.linkageOpen "C", [⟨"__cplusplus", true⟩, ⟨"MediaRemote_h", false⟩]),
          (.closeBrace, [⟨"__cplusplus", true⟩, ⟨"MediaRemote_h", false⟩]) ] ∧
      ((guards [] header).filter fun p => p.1.isDecl).map (fun p => p.2) =
        List.replicate 15 [⟨"MediaRemote_h", false⟩] := by
  have h1 : defsCpp.contains "__cplusplus" = true := by simpa using hcpp
  have h2 : defsC.contains "__cplusplus" = false := by simpa using hc
  refine ⟨_, _, includeFile_header_fresh defsCpp [] hg1,
    includeFile_header_fresh defsC [] hg2, ?_⟩
  simp only [h1, h2, List.nil_append]
  decide

/-- C7 at a concrete pair of configurations: `__cplusplus` defined, and nothing defined. -/
theorem C7_c_linkage_block_witness :
    ("MediaRemote_h" ∉ ["__cplusplus"] ∧ "MediaRemote_h" ∉ ([] : List String) ∧
      "__cplusplus" ∈ ["__cplusplus"] ∧ "__cplusplus" ∉ ([] : List String)) ∧
    ∃ sCpp sC,
      preprocess ["__cplusplus"] header = some sCpp ∧ preprocess [] header = some sC ∧
      sCpp.out =
        [.hashImport "Foundation/Foundation.h", .linkageOpen "C"] ++
          declarations.map Line.decl ++ [.closeBrace] ∧
      linkages [] sCpp.out = declarations.map (fun d => (d, some "C")) ∧
      sC.out = .hashImport "Foundation/Foundation.h" :: declarations.map Line.decl ∧
      sCpp.out.filter Line.isBrace = [.linkageOpen "C", .closeBrace] ∧
      sC.out.filter Line.isBrace = [] ∧
      linkages [] sC.out = declarations.map (fun d => (d, none)) ∧
      declsOf sCpp.out = declarations ∧ declsOf sC.out = declarations ∧
      (declsOf sCpp.out).map Decl.name = (declsOf sC.out).map Decl.name ∧
      (guards [] header).filter (fun p => p.1.isBrace) =
        [ (.linkageOpen "C", [⟨"__cplusplus", true⟩, ⟨"MediaRemote_h", false⟩]),
          (.closeBrace, [⟨"__cplusplus", true⟩, ⟨"MediaRemote_h", false⟩]) ] ∧
      ((guards [] header).filter fun p => p.1.isDecl).map (fun p => p.2) =
        List.replicate 15 [⟨"MediaRemote_h", false⟩] :=
  ⟨by decide, C7_c_linkage_block ["__cplusplus"] [] (by decide) (by decide) (by decide)
    (by decide)⟩

/-- C9: the header opens with `#ifndef MediaRemote_h` and `#define MediaRemote_h`
and ends with the `#endif` that closes them, and every other line lies inside that
group.  Processing it with `MediaRemote_h` already defined passes on nothing;
starting without it, including the header twice passes on the same lines, and the
same fifteen declarations, as including it once.  The conditional directives of
the file are balanced. -/
theorem C9_include_guard_idempotent (defsG defsF : List String)
    (hG : "MediaRemote_h" ∈ defsG) (hF : "MediaRemote_h" ∉ defsF) :
    header.take 2 = [.ifNotDefined "MediaRemote_h", .define "MediaRemote_h"] ∧
    header.getLast? = some (.endif " /* MediaRemote_h */") ∧
    depthAfter 0 header.dropLast = some 1 ∧
    ((guards [] header).all fun p => p.2.getLast? = some ⟨"MediaRemote_h", false⟩) = true ∧
    (guards [] header).length = 29 ∧
    (∃ s, preprocess defsG header = some s ∧ s.out = [] ∧ declsOf s.out = [] ∧
      s.defs = defsG) ∧
    (∃ s1 s2,
      includeFiles ⟨defsF, [], []⟩ [header] = some s1 ∧
      includeFiles ⟨defsF, [], []⟩ [header, header] = some s2 ∧
      s2 = s1 ∧ declsOf s2.out = declsOf s1.out ∧
      declsOf s1.out = declarations ∧ (declsOf s1.out).length = 15 ∧
      "MediaRemote_h" ∈ s1.defs) ∧
    balanced header = true ∧
    balanced (header ++ header) = true := by
  refine ⟨by decide, by decide, by decide, by decide, by decide, ?_, ?_, by decide, by decide⟩
  · exact ⟨_, includeFile_header_guarded ⟨defsG, [], []⟩ hG, rfl, rfl, rfl⟩
  · have e1 := includeFile_header_fresh defsF [] hF
    have e2 := includeFile_header_guarded
      ⟨"MediaRemote_h" :: defsF, [], [] ++ firstInclusionOutput (defsF.contains "__cplusplus")⟩
      (by simp)
    refine ⟨⟨"MediaRemote_h" :: defsF, [],
        [] ++ firstInclusionOutput (defsF.contains "__cplusplus")⟩,
      ⟨"MediaRemote_h" :: defsF, [],
        [] ++ firstInclusionOutput (defsF.contains "__cplusplus")⟩, ?_, ?_, rfl, rfl, ?_, ?_, ?_⟩
    · simp only [includeFiles, e1, Option.some_bind]
    · simp only [includeFiles, e1, e2, Option.some_bind]
    · simpa using declsOf_firstInclusionOutput _
    · simpa using congrArg List.length (declsOf_firstInclusionOutput (defsF.contains "__cplusplus"))
    · simp

/-- C9 at concrete inputs: the guard name alone defined, and nothing defined. -/
theorem C9_include_guard_idempotent_witness :
    ("MediaRemote_h" ∈ ["MediaRemote_h"] ∧ "MediaRemote_h" ∉ ([] : List String)) ∧
    (∃ s, preprocess ["MediaRemote_h"] header = some s ∧ s.out = [] ∧ declsOf s.out = [] ∧
      s.defs = ["MediaRemote_h"]) ∧
    (∃ s1 s2,
      includeFiles ⟨[], [], []⟩ [header] = some s1 ∧
      includeFiles ⟨[], [], []⟩ [header, header] = some s2 ∧
      s2 = s1 ∧ declsOf s2.out = declsOf s1.out ∧
      declsOf s1.out = declarations ∧ (declsOf s1.out).length = 15 ∧
      "MediaRemote_h" ∈ s1.defs) :=
  ⟨by decide,
    (C9_include_guard_idempotent ["MediaRemote_h"] [] (by decide) (by decide)).2.2.2.2.2.1,
    (C9_include_guard_idempotent ["MediaRemote_h"] [] (by decide) (by decide)).2.2.2.2.2.2.1⟩

end MediaRemote
